import Mathlib

/-!
# Verification of the gated submission flow (plant page and landing page)

Shallow embedding of the client-side submission workflow found in
`src/app/plant/page.tsx` and the landing page `HomeContent` component:
local draft state, submit-time validation, the submission pipeline with
its re-entrancy guard, the media preview lifecycle, and the auth-gated
navigation effects.

Conventions of the embedding:
* React `useState` hooks of `PlantPageContent` become the fields of
  `PlantState`.  Browser object-URL handles are modelled as natural
  numbers allocated from a counter `nextHandle`; `revokeImagePreview`
  appends the handle to the `revoked` list.
* The async `handleSubmit` is split at its single suspension point (the
  `fetch` call): `handleSubmitStart` is the synchronous prefix up to and
  including issuing the request, `handleSubmitFinish` is the continuation
  run when the request settles (resolution or rejection), including the
  `finally` block.  `handleSubmit` composes the two.
* The outcome of the network call is an oracle parameter `FetchOutcome`:
  a response with its `ok` flag and the parsed body's optional `error`
  field, or a rejection carrying the thrown error's message.
* Side effects (the POST request, `setTimeout`-scheduled navigation) are
  returned as an explicit `Effect` list.
* JavaScript truthiness on strings (`x || fallback`) is `jsTruthyStr` /
  an emptiness test, and `parseInt` is `jsParseInt` (`none` for `NaN`).
-/

/-- `DistrictSearchResult` record delivered by the district-search
collaborator: `{id, name, state}`. -/
structure District where
  id : String
  name : String
  state : String
deriving Repr, DecidableEq

/-- The authenticated user observed through `useAuth` (`user.uid`,
`user.displayName`, `user.email`, each possibly absent). -/
structure AuthUser where
  uid : Option String
  displayName : Option String
  email : Option String
deriving Repr, DecidableEq

/-- A user-chosen `File`. -/
structure ImgFile where
  name : String
  size : Nat
  mime : String
deriving Repr, DecidableEq

/-- The `useState` fields of `PlantPageContent`, plus the handle-allocation
bookkeeping (`nextHandle`, `revoked`) that models `createImagePreview` /
`revokeImagePreview`. -/
structure PlantState where
  image : Option ImgFile
  previewUrl : Option Nat
  nextHandle : Nat
  revoked : List Nat
  treeQuantity : Int
  treeName : String
  selectedDistrict : Option District
  error : Option String
  success : Option String
  submitting : Bool
deriving Repr, DecidableEq

/-- JavaScript truthiness on an optional string: `undefined`, `null` and
`""` are falsy.  `jsTruthyStr o = some s` exactly when the field is
present with a non-empty value. -/
def jsTruthyStr (o : Option String) : Option String :=
  match o with
  | none => none
  | some s => if s = "" then none else some s

/-- `a || b` for strings: the left operand unless it is empty. -/
def jsOrStr (a b : String) : String :=
  if a = "" then b else a

/-- JavaScript whitespace test used by `trim` / `parseInt` (the common
whitespace characters suffice for this model). -/
def jsWs (c : Char) : Bool :=
  c = ' ' || c = '\t' || c = '\n' || c = '\r'

/-- JavaScript `s.trim()`: strip leading and trailing whitespace. -/
def jsTrim (s : String) : String :=
  String.mk (((s.data.dropWhile jsWs).reverse.dropWhile jsWs).reverse)

/-- Leading decimal-digit prefix of a character list; `none` when the
first character is not a digit (JavaScript `parseInt` yielding `NaN`). -/
def leadDigits (cs : List Char) : Option Nat :=
  let ds := cs.takeWhile Char.isDigit
  if ds.isEmpty then none
  else some (ds.foldl (fun a c => a * 10 + (c.toNat - 48)) 0)

/-- JavaScript `parseInt(s)` (radix 10): skip leading whitespace, accept
an optional sign, read the leading digit run; `none` models `NaN`. -/
def jsParseInt (s : String) : Option Int :=
  let cs := s.data.dropWhile jsWs
  match cs with
  | '-' :: rest => (leadDigits rest).map (fun n => -(n : Int))
  | '+' :: rest => (leadDigits rest).map (fun n => (n : Int))
  | rest => (leadDigits rest).map (fun n => (n : Int))

/-- `x || d` after `parseInt`: `NaN` (`none`) and `0` are falsy. -/
def jsOrNum (x : Option Int) (d : Int) : Int :=
  match x with
  | none => d
  | some v => if v = 0 then d else v

/-- The quantity input's `onChange` handler:
`setTreeQuantity(Math.max(1, parseInt(e.target.value) || 1))`. -/
def onQuantityChange (value : String) (s : PlantState) : PlantState :=
  { s with treeQuantity := max 1 (jsOrNum (jsParseInt value) 1) }

/-- `revokeImagePreview` applied to the current preview handle, when one
exists (the handle is recorded as revoked; the `previewUrl` field itself
is only cleared by a separate `setPreviewUrl`). -/
def revokeCurrent (s : PlantState) : PlantState :=
  match s.previewUrl with
  | some h => { s with revoked := h :: s.revoked }
  | none => s

/-- State of `handleImageFile` after `revokeImagePreview(previewUrl)` but
before `setImage`/`setPreviewUrl` run: the intermediate observable point
of the release-then-replace sequence. -/
def handleImageFileMid (s : PlantState) : PlantState :=
  revokeCurrent s

/-- `handleImageFile(file)`.  The external `validateImageFile(file)`
result is the oracle parameter `vres : Bool × Option String`
(`{valid, error?}`).  On failure: `setError(validation.error || 'Invalid
image file')`, nothing else.  On success: release any live preview, store
the file, synthesize a fresh preview handle, clear banners. -/
def handleImageFile (vres : Bool × Option String) (f : ImgFile) (s : PlantState) :
    PlantState :=
  if vres.1 = false then
    { s with error := some ((jsTruthyStr vres.2).getD "Invalid image file") }
  else
    let sMid := handleImageFileMid s
    { sMid with
      image := some f
      previewUrl := some s.nextHandle
      nextHandle := s.nextHandle + 1
      error := none
      success := none }

/-- The multipart payload built by `handleSubmit` (`FormData` appends).
Identity fields are appended only when present and non-empty
(`if (user?.uid) ...`). -/
structure PlantFormData where
  districtId : String
  districtName : String
  stateName : String
  treeName : String
  treeQuantity : Int
  userId : Option String
  userName : Option String
  userEmail : Option String
  image : ImgFile
deriving Repr, DecidableEq

/-- Result of the synchronous prefix of `handleSubmit`: either a
validation failure returned before any request (`blocked`, carrying the
updated state), or the request was issued (`started`, carrying the state
at the moment of the `fetch` call and the payload). -/
inductive StartResult where
  | blocked (s : PlantState)
  | started (s : PlantState) (fd : PlantFormData)
deriving Repr, DecidableEq

/-- Synchronous prefix of `handleSubmit`: clear both banners, run the
four validation checks in source order (district, photo, trimmed name,
quantity), short-circuiting on the first failure; otherwise set
`submitting`, build the `FormData` and issue the request. -/
def handleSubmitStart (u : Option AuthUser) (s : PlantState) : StartResult :=
  let s0 : PlantState := { s with error := none, success := none }
  match s0.selectedDistrict with
  | none => StartResult.blocked { s0 with error := some "Please select a district" }
  | some d =>
    match s0.image with
    | none => StartResult.blocked { s0 with error := some "Please upload a tree photo" }
    | some img =>
      if jsTrim s0.treeName = "" then
        StartResult.blocked { s0 with error := some "Please enter the tree name" }
      else if s0.treeQuantity < 1 then
        StartResult.blocked { s0 with error := some "Please enter a valid number of trees" }
      else
        StartResult.started { s0 with submitting := true }
          { districtId := d.id
            districtName := d.name
            stateName := d.state
            treeName := jsTrim s0.treeName
            treeQuantity := s0.treeQuantity
            userId := jsTruthyStr (u.bind AuthUser.uid)
            userName := jsTruthyStr (u.bind AuthUser.displayName)
            userEmail := jsTruthyStr (u.bind AuthUser.email)
            image := img }

/-- How the awaited network call settles: a response (`res.ok`, body's
optional `error` field) or a rejection/throw with a message. -/
inductive FetchOutcome where
  | response (ok : Bool) (errorField : Option String)
  | reject (msg : String)
deriving Repr, DecidableEq

/-- A side effect emitted by the pipeline: the POST request, or a
`setTimeout`-scheduled navigation (delay in milliseconds, target path). -/
inductive Effect where
  | request (fd : PlantFormData)
  | scheduleNav (delayMs : Nat) (path : String)
deriving Repr, DecidableEq

/-- Continuation of `handleSubmit` from the settled `fetch` onwards,
`finally` included.  On `res.ok`: success banner, clear the draft
(revoking any live preview), schedule the 2000 ms navigation to
`/contribution`.  On `!res.ok`: `throw new Error(json.error || '...')`
caught as `setError(err.message || '...')`.  On rejection: the catch
branch alone.  Every path ends with `setSubmitting(false)`. -/
def handleSubmitFinish (s : PlantState) (o : FetchOutcome) :
    PlantState × List Effect :=
  match o with
  | FetchOutcome.response true _ =>
      ({ s with
          success := some "Tree contribution submitted successfully!"
          image := none
          revoked := (match s.previewUrl with
                      | some h => h :: s.revoked
                      | none => s.revoked)
          previewUrl := none
          treeName := ""
          treeQuantity := 1
          selectedDistrict := none
          submitting := false },
       [Effect.scheduleNav 2000 "/contribution"])
  | FetchOutcome.response false errField =>
      ({ s with
          error := some ((jsTruthyStr errField).getD "Failed to submit contribution")
          submitting := false }, [])
  | FetchOutcome.reject msg =>
      ({ s with
          error := some (jsOrStr msg "Failed to submit contribution")
          submitting := false }, [])

/-- Whole `handleSubmit` run for one submission whose network call (if it
is reached) settles with outcome `o`: the start phase composed with the
finish phase, collecting the emitted effects. -/
def handleSubmit (u : Option AuthUser) (s : PlantState) (o : FetchOutcome) :
    PlantState × List Effect :=
  match handleSubmitStart u s with
  | StartResult.blocked s1 => (s1, [])
  | StartResult.started s1 fd =>
      let r := handleSubmitFinish s1 o
      (r.1, Effect.request fd :: r.2)

/-- The `useEffect` cleanup keyed to `previewUrl`, as run on component
teardown: `if (previewUrl) revokeImagePreview(previewUrl)`. -/
def unmountCleanup (s : PlantState) : PlantState :=
  revokeCurrent s

/-- The delayed navigations among a list of effects, as
(delay, path) pairs. -/
def navEffects (effs : List Effect) : List (Nat × String) :=
  effs.filterMap (fun e =>
    match e with
    | Effect.scheduleNav d p => some (d, p)
    | _ => none)

/-- The network requests among a list of effects. -/
def requestsOf (effs : List Effect) : List PlantFormData :=
  effs.filterMap (fun e =>
    match e with
    | Effect.request fd => some fd
    | _ => none)

/-!
## Event machine for the submission pipeline

The form instance as a whole: the component state plus the list of
issued-but-unsettled requests.  A user click on the submit control is a
no-op while `submitting` is true because the button carries
`disabled={submitting}`; otherwise it runs the synchronous prefix of
`handleSubmit`.  A settle event resumes the oldest outstanding request's
continuation.
-/

/-- A form instance: component state plus outstanding (issued, not yet
settled) requests. -/
structure FormMachine where
  ui : PlantState
  pending : List PlantFormData
deriving Repr, DecidableEq

/-- User-visible events driving the pipeline: a click on the submit
control, or the settling of the outstanding network call. -/
inductive MEvent where
  | click
  | settle (o : FetchOutcome)
deriving Repr, DecidableEq

/-- One step of the form instance.  `click` is ignored while the submit
control is disabled (`submitting = true`); otherwise it runs
`handleSubmitStart`, recording the issued request.  `settle` with no
outstanding request is a no-op; otherwise it runs `handleSubmitFinish`. -/
def mstep (u : Option AuthUser) (m : FormMachine) : MEvent → FormMachine × List Effect
  | MEvent.click =>
      if m.ui.submitting then (m, [])
      else
        match handleSubmitStart u m.ui with
        | StartResult.blocked s1 => ({ ui := s1, pending := m.pending }, [])
        | StartResult.started s1 fd =>
            ({ ui := s1, pending := m.pending ++ [fd] }, [Effect.request fd])
  | MEvent.settle o =>
      match m.pending with
      | [] => (m, [])
      | _ :: rest =>
          let r := handleSubmitFinish m.ui o
          ({ ui := r.1, pending := rest }, r.2)

/-- All states visited while consuming a list of events (the initial
state included). -/
def machineStates (u : Option AuthUser) (m : FormMachine) : List MEvent → List FormMachine
  | [] => [m]
  | e :: es => m :: machineStates u (mstep u m e).1 es

/-!
## Media preview handle accounting
-/

/-- A preview handle is live when it has been allocated and not
revoked. -/
def liveHandle (s : PlantState) (h : Nat) : Prop :=
  h < s.nextHandle ∧ h ∉ s.revoked

/-- Handle-accounting invariant of the component state: every allocated
handle is bounded by the counter, and every live handle is the current
`previewUrl` (hence at most one handle is ever live). -/
def handleInv (s : PlantState) : Prop :=
  (∀ h ∈ s.revoked, h < s.nextHandle) ∧
  (s.previewUrl.all (fun h => decide (h < s.nextHandle)) = true) ∧
  (∀ h ∈ List.range s.nextHandle, h ∉ s.revoked → s.previewUrl = some h)

instance (s : PlantState) : Decidable (handleInv s) := by
  unfold handleInv
  infer_instance

/-- At most one preview handle is live in a state. -/
def atMostOneLive (s : PlantState) : Prop :=
  ∀ h1 h2 : Nat, liveHandle s h1 → liveHandle s h2 → h1 = h2

/-!
## Session gates

The navigation `useEffect`s of the plant page and the landing page, with
React's dependency-array semantics: the effect body runs on mount and
again whenever the observed `(loading, user)` snapshot differs from the
previous render's.
-/

/-- One render's view of the auth collaborator: `(loading, user)`. -/
def AuthSnap : Type := Bool × Option AuthUser

instance : DecidableEq AuthSnap := by
  unfold AuthSnap
  infer_instance

/-- Snapshots at which a dependency-keyed effect body runs, given the
successive snapshots of its dependencies: the first render and every
render whose snapshot differs from the previous one. -/
def effectFiringsAux {α : Type} [DecidableEq α] (prev : α) : List α → List α
  | [] => []
  | b :: bs => if b = prev then effectFiringsAux b bs else b :: effectFiringsAux b bs

/-- Dependency-array semantics over a whole render sequence. -/
def effectFirings {α : Type} [DecidableEq α] : List α → List α
  | [] => []
  | a :: rest => a :: effectFiringsAux a rest

/-- Body of the plant page's gate effect:
`if (!authLoading && !user) router.push('/?auth_required=true')`. -/
def plantGateEffect (snap : AuthSnap) : List String :=
  if snap.1 = false ∧ snap.2 = none then ["/?auth_required=true"] else []

/-- Navigations fired by the plant page gate over a render sequence. -/
def plantGateNavs (snaps : List AuthSnap) : List String :=
  (effectFirings snaps).flatMap plantGateEffect

/-- Body of the landing page's gate effect:
`if (!loading && user) router.push('/dashboard')`. -/
def homeGateEffect (snap : AuthSnap) : List String :=
  if snap.1 = false ∧ (snap.2.isSome = true) then ["/dashboard"] else []

/-- Navigations fired by the landing page gate over a render sequence. -/
def homeGateNavs (snaps : List AuthSnap) : List String :=
  (effectFirings snaps).flatMap homeGateEffect

/-- What `PlantPageContent` renders: the loading spinner while auth is
resolving, nothing when unauthenticated, otherwise the form. -/
inductive PlantRender where
  | spinner
  | empty
  | form
deriving Repr, DecidableEq

/-- Render function of `PlantPageContent` as a function of the auth
snapshot (`if (authLoading) ... ; if (!user) return null; ...`). -/
def plantRender (snap : AuthSnap) : PlantRender :=
  if snap.1 then PlantRender.spinner
  else if snap.2 = none then PlantRender.empty
  else PlantRender.form

/-- What `HomeContent` renders: spinner while resolving, nothing when
authenticated (redirect imminent), otherwise the landing view. -/
inductive HomeRender where
  | spinner
  | empty
  | landing
deriving Repr, DecidableEq

/-- Render function of `HomeContent` as a function of the auth snapshot
(`if (loading) ... ; if (user) return null; ...`). -/
def homeRender (snap : AuthSnap) : HomeRender :=
  if snap.1 then HomeRender.spinner
  else if snap.2.isSome then HomeRender.empty
  else HomeRender.landing

/-!
## Sample data for witnesses
-/

/-- A concrete district selection. -/
def sampleDistrict : District := { id := "d-01", name := "Pune", state := "Maharashtra" }

/-- A concrete valid image file. -/
def sampleFile : ImgFile := { name := "tree.jpg", size := 2048, mime := "image/jpeg" }

/-- A fully filled draft with a live preview handle, ready to submit. -/
def draftReady : PlantState :=
  { image := some sampleFile
    previewUrl := some 0
    nextHandle := 1
    revoked := []
    treeQuantity := 3
    treeName := "Neem"
    selectedDistrict := some sampleDistrict
    error := none
    success := none
    submitting := false }

/-!
## Theorems
-/

/-- **C1.** For every submission whose network request returns a 2xx
status (`res.ok`), `handleSubmit` clears all draft fields (image absent,
tree name empty, quantity reset to 1, selected district absent), revokes
the live preview handle and clears the preview field, sets the success
banner, and schedules exactly one delayed navigation, with the fixed
2000 ms delay, to `/contribution`. -/
theorem submit_success_clears_draft (u : Option AuthUser) (s : PlantState)
    (d : District) (img : ImgFile) (h0 : Nat) (ef : Option String)
    (hd : s.selectedDistrict = some d) (hi : s.image = some img)
    (hn : ¬ jsTrim s.treeName = "") (hq : 1 ≤ s.treeQuantity)
    (hp : s.previewUrl = some h0) :
    (handleSubmit u s (FetchOutcome.response true ef)).1.image = none ∧
    (handleSubmit u s (FetchOutcome.response true ef)).1.treeName = "" ∧
    (handleSubmit u s (FetchOutcome.response true ef)).1.treeQuantity = 1 ∧
    (handleSubmit u s (FetchOutcome.response true ef)).1.selectedDistrict = none ∧
    (handleSubmit u s (FetchOutcome.response true ef)).1.previewUrl = none ∧
    h0 ∈ (handleSubmit u s (FetchOutcome.response true ef)).1.revoked ∧
    (handleSubmit u s (FetchOutcome.response true ef)).1.success =
      some "Tree contribution submitted successfully!" ∧
    navEffects (handleSubmit u s (FetchOutcome.response true ef)).2 =
      [(2000, "/contribution")] := by
  rcases s with ⟨i, pu, nh, rv, q, tn, sd, er, su, sb⟩
  simp only at hd hi hn hq hp
  subst hd hi hp
  simp [handleSubmit, handleSubmitStart, handleSubmitFinish, navEffects, hn,
    not_lt.mpr hq]

/-- **C1 witness.** -/
theorem submit_success_clears_draft_witness :
    (draftReady.selectedDistrict = some sampleDistrict ∧
     draftReady.image = some sampleFile ∧
     ¬ jsTrim draftReady.treeName = "" ∧
     1 ≤ draftReady.treeQuantity ∧
     draftReady.previewUrl = some 0) ∧
    ((handleSubmit none draftReady (FetchOutcome.response true none)).1.image = none ∧
     (handleSubmit none draftReady (FetchOutcome.response true none)).1.treeName = "" ∧
     (handleSubmit none draftReady (FetchOutcome.response true none)).1.treeQuantity = 1 ∧
     (handleSubmit none draftReady (FetchOutcome.response true none)).1.selectedDistrict = none ∧
     (handleSubmit none draftReady (FetchOutcome.response true none)).1.previewUrl = none ∧
     0 ∈ (handleSubmit none draftReady (FetchOutcome.response true none)).1.revoked ∧
     (handleSubmit none draftReady (FetchOutcome.response true none)).1.success =
       some "Tree contribution submitted successfully!" ∧
     navEffects (handleSubmit none draftReady (FetchOutcome.response true none)).2 =
       [(2000, "/contribution")]) :=
  ⟨⟨by decide, by decide, by decide, by decide, by decide⟩,
   submit_success_clears_draft none draftReady sampleDistrict sampleFile 0 none
     (by decide) (by decide) (by decide) (by decide) (by decide)⟩

/-- **C2.** For every submission whose network request returns a non-2xx
status, `handleSubmit` sets the failure banner with the response body's
`error` field when a non-empty one is present (JavaScript truthiness of
`json.error || ...`) and the generic fallback otherwise; the draft fields
(district, image, preview, tree name, quantity) are unchanged, no handle
is revoked, and the submit control is re-enabled (`submitting = false`). -/
theorem submit_failure_preserves_draft (u : Option AuthUser) (s : PlantState)
    (d : District) (img : ImgFile) (ef : Option String)
    (hd : s.selectedDistrict = some d) (hi : s.image = some img)
    (hn : ¬ jsTrim s.treeName = "") (hq : 1 ≤ s.treeQuantity) :
    (handleSubmit u s (FetchOutcome.response false ef)).1.selectedDistrict =
      s.selectedDistrict ∧
    (handleSubmit u s (FetchOutcome.response false ef)).1.image = s.image ∧
    (handleSubmit u s (FetchOutcome.response false ef)).1.previewUrl = s.previewUrl ∧
    (handleSubmit u s (FetchOutcome.response false ef)).1.treeName = s.treeName ∧
    (handleSubmit u s (FetchOutcome.response false ef)).1.treeQuantity = s.treeQuantity ∧
    (handleSubmit u s (FetchOutcome.response false ef)).1.revoked = s.revoked ∧
    (handleSubmit u s (FetchOutcome.response false ef)).1.submitting = false ∧
    (handleSubmit u s (FetchOutcome.response false ef)).1.error =
      some ((jsTruthyStr ef).getD "Failed to submit contribution") := by
  rcases s with ⟨i, pu, nh, rv, q, tn, sd, er, su, sb⟩
  simp only at hd hi hn hq
  subst hd hi
  simp [handleSubmit, handleSubmitStart, handleSubmitFinish, hn, not_lt.mpr hq]

/-- **C2 witness**, with the simulated response body
`{"error": "district required"}`. -/
theorem submit_failure_preserves_draft_witness :
    (draftReady.selectedDistrict = some sampleDistrict ∧
     draftReady.image = some sampleFile ∧
     ¬ jsTrim draftReady.treeName = "" ∧
     1 ≤ draftReady.treeQuantity) ∧
    ((handleSubmit none draftReady
        (FetchOutcome.response false (some "district required"))).1.selectedDistrict =
       draftReady.selectedDistrict ∧
     (handleSubmit none draftReady
        (FetchOutcome.response false (some "district required"))).1.image =
       draftReady.image ∧
     (handleSubmit none draftReady
        (FetchOutcome.response false (some "district required"))).1.previewUrl =
       draftReady.previewUrl ∧
     (handleSubmit none draftReady
        (FetchOutcome.response false (some "district required"))).1.treeName =
       draftReady.treeName ∧
     (handleSubmit none draftReady
        (FetchOutcome.response false (some "district required"))).1.treeQuantity =
       draftReady.treeQuantity ∧
     (handleSubmit none draftReady
        (FetchOutcome.response false (some "district required"))).1.revoked =
       draftReady.revoked ∧
     (handleSubmit none draftReady
        (FetchOutcome.response false (some "district required"))).1.submitting = false ∧
     (handleSubmit none draftReady
        (FetchOutcome.response false (some "district required"))).1.error =
       some ((jsTruthyStr (some "district required")).getD
         "Failed to submit contribution")) :=
  ⟨⟨by decide, by decide, by decide, by decide⟩,
   submit_failure_preserves_draft none draftReady sampleDistrict sampleFile
     (some "district required") (by decide) (by decide) (by decide) (by decide)⟩

/-- **C3.** The validation pass of `handleSubmit` checks, in source
order: district present, attachment present, trimmed tree name
non-blank, quantity at least 1; whenever any check fails, the error
banner carries the message of the first failing check and no network
request (indeed no effect at all) is issued. -/
theorem validation_order_short_circuits (u : Option AuthUser) (s : PlantState)
    (o : FetchOutcome)
    (hf : s.selectedDistrict = none ∨ s.image = none ∨
          jsTrim s.treeName = "" ∨ s.treeQuantity < 1) :
    (handleSubmit u s o).1.error =
      some (if s.selectedDistrict = none then "Please select a district"
            else if s.image = none then "Please upload a tree photo"
            else if jsTrim s.treeName = "" then "Please enter the tree name"
            else "Please enter a valid number of trees") ∧
    (handleSubmit u s o).2 = [] := by
  rcases s with ⟨i, pu, nh, rv, q, tn, sd, er, su, sb⟩
  simp only at hf
  cases sd with
  | none => simp [handleSubmit, handleSubmitStart]
  | some d =>
    cases i with
    | none => simp [handleSubmit, handleSubmitStart]
    | some img =>
      simp only [reduceCtorEq, false_or] at hf
      by_cases ht : jsTrim tn = ""
      · simp [handleSubmit, handleSubmitStart, ht]
      · rcases hf with h | h
        · exact absurd h ht
        · simp [handleSubmit, handleSubmitStart, ht, h]

/-- **C3 witness**: all fields present except the attachment, so the
photo check is the first failure and no request is issued. -/
theorem validation_order_short_circuits_witness :
    (({ draftReady with image := none } : PlantState).selectedDistrict = none ∨
     ({ draftReady with image := none } : PlantState).image = none ∨
     jsTrim ({ draftReady with image := none } : PlantState).treeName = "" ∨
     ({ draftReady with image := none } : PlantState).treeQuantity < 1) ∧
    ((handleSubmit none { draftReady with image := none } (FetchOutcome.reject "")).1.error =
      some (if ({ draftReady with image := none } : PlantState).selectedDistrict = none
            then "Please select a district"
            else if ({ draftReady with image := none } : PlantState).image = none
            then "Please upload a tree photo"
            else if jsTrim ({ draftReady with image := none } : PlantState).treeName = ""
            then "Please enter the tree name"
            else "Please enter a valid number of trees") ∧
     (handleSubmit none { draftReady with image := none } (FetchOutcome.reject "")).2 = []) := by
  refine ⟨by decide, ?_⟩
  exact validation_order_short_circuits none { draftReady with image := none }
    (FetchOutcome.reject "") (by decide)

/-- **C4.** For every string entered in the quantity input, the stored
quantity becomes `max(1, parseInt(value) || 1)` at entry time — in
particular it is always at least 1 — and the inputs `"0"`, `"-5"` and
non-numeric text all store quantity 1, before any submit-time validation
is involved. -/
theorem quantity_input_clamped :
    (∀ (value : String) (s : PlantState),
       (onQuantityChange value s).treeQuantity =
         max 1 (jsOrNum (jsParseInt value) 1) ∧
       1 ≤ (onQuantityChange value s).treeQuantity) ∧
    (∀ s : PlantState,
       (onQuantityChange "0" s).treeQuantity = 1 ∧
       (onQuantityChange "-5" s).treeQuantity = 1 ∧
       (onQuantityChange "abc" s).treeQuantity = 1) := by
  constructor
  · intro value s
    refine ⟨rfl, ?_⟩
    simp [onQuantityChange]
  · intro s
    refine ⟨?_, ?_, ?_⟩ <;> simp [onQuantityChange] <;> decide

/-!
## Pipeline machine lemmas
-/

/-- A blocked start leaves the `submitting` flag as it was. -/
theorem start_blocked_submitting (u : Option AuthUser) (s s1 : PlantState)
    (h : handleSubmitStart u s = StartResult.blocked s1) :
    s1.submitting = s.submitting := by
  rcases s with ⟨i, pu, nh, rv, q, tn, sd, er, su, sb⟩
  cases sd with
  | none =>
    simp only [handleSubmitStart] at h
    injection h with h1
    subst h1
    rfl
  | some d =>
    cases i with
    | none =>
      simp only [handleSubmitStart] at h
      injection h with h1
      subst h1
      rfl
    | some img =>
      simp only [handleSubmitStart] at h
      split at h
      · injection h with h1
        subst h1
        rfl
      · split at h
        · injection h with h1
          subst h1
          rfl
        · cases h

/-- A started submission has set the `submitting` flag (before the
request was issued). -/
theorem start_started_submitting (u : Option AuthUser) (s s1 : PlantState)
    (fd : PlantFormData) (h : handleSubmitStart u s = StartResult.started s1 fd) :
    s1.submitting = true := by
  rcases s with ⟨i, pu, nh, rv, q, tn, sd, er, su, sb⟩
  cases sd with
  | none =>
    simp only [handleSubmitStart] at h
    cases h
  | some d =>
    cases i with
    | none =>
      simp only [handleSubmitStart] at h
      cases h
    | some img =>
      simp only [handleSubmitStart] at h
      split at h
      · cases h
      · split at h
        · cases h
        · injection h with h1 h2
          subst h1
          rfl

/-- Every settle path, `finally` included, clears the `submitting`
flag. -/
theorem finish_clears_submitting (s : PlantState) (o : FetchOutcome) :
    (handleSubmitFinish s o).1.submitting = false := by
  rcases o with ⟨ok, ef⟩ | msg
  · cases ok <;> rfl
  · rfl

/-- The settle continuation never issues a network request. -/
theorem finish_no_request (s : PlantState) (o : FetchOutcome) :
    requestsOf (handleSubmitFinish s o).2 = [] := by
  rcases o with ⟨ok, ef⟩ | msg
  · cases ok <;> rfl
  · rfl

/-- Machine invariant: the `submitting` flag holds exactly while a
request is outstanding, and at most one request is ever outstanding. -/
def machInv (m : FormMachine) : Prop :=
  m.ui.submitting = !m.pending.isEmpty ∧ m.pending.length ≤ 1

/-- `machInv` is preserved by every machine step. -/
theorem mstep_preserves_machInv (u : Option AuthUser) (m : FormMachine)
    (e : MEvent) (hinv : machInv m) : machInv (mstep u m e).1 := by
  obtain ⟨hflag, hlen⟩ := hinv
  cases e with
  | click =>
    by_cases hs : m.ui.submitting = true
    · simp [mstep, hs]
      exact ⟨hflag, hlen⟩
    · have hs' : m.ui.submitting = false := by
        cases h : m.ui.submitting
        · rfl
        · exact absurd h hs
      have hpe : m.pending = [] := by
        rw [hs'] at hflag
        cases hp : m.pending with
        | nil => rfl
        | cons a l => rw [hp] at hflag; simp at hflag
      cases hstart : handleSubmitStart u m.ui with
      | blocked s1 =>
        simp [mstep, hs', hstart, machInv, hpe]
        rw [start_blocked_submitting u m.ui s1 hstart, hs']
      | started s1 fd =>
        simp [mstep, hs', hstart, machInv, hpe]
        exact start_started_submitting u m.ui s1 fd hstart
  | settle o =>
    cases hp : m.pending with
    | nil =>
      simp [mstep, hp]
      exact ⟨hflag, hlen⟩
    | cons fd rest =>
      have hrest : rest = [] := by
        rw [hp] at hlen
        simp at hlen
        exact hlen
      simp [mstep, hp, machInv, hrest, finish_clears_submitting]

/-- `machInv` holds of every state visited from a state satisfying
it. -/
theorem machInv_reachable (u : Option AuthUser) (evs : List MEvent)
    (m m' : FormMachine) (hinv : machInv m)
    (hm : m' ∈ machineStates u m evs) : machInv m' := by
  induction evs generalizing m with
  | nil =>
    simp [machineStates] at hm
    subst hm
    exact hinv
  | cons e es ih =>
    simp only [machineStates, List.mem_cons] at hm
    cases hm with
    | inl h => subst h; exact hinv
    | inr h => exact ih (mstep u m e).1 (mstep_preserves_machInv u m e hinv) h

/-- **C5.** From an idle form instance, every reachable machine state
has at most one outstanding request; while a request is outstanding the
`submitting` flag is set, a submit click is ignored outright (the control
is disabled), and no event whatsoever emits a new network request. -/
theorem reentrant_guard_single_request (u : Option AuthUser)
    (m m' : FormMachine) (evs : List MEvent) (e : MEvent)
    (h0 : m.ui.submitting = false) (h0p : m.pending = [])
    (hm : m' ∈ machineStates u m evs) (hp : m'.pending ≠ []) :
    m'.pending.length ≤ 1 ∧ m'.ui.submitting = true ∧
    mstep u m' MEvent.click = (m', []) ∧
    requestsOf (mstep u m' e).2 = [] := by
  have hinv0 : machInv m := by
    constructor
    · rw [h0, h0p]; rfl
    · rw [h0p]; simp
  obtain ⟨hflag, hlen⟩ := machInv_reachable u evs m m' hinv0 hm
  have hsub : m'.ui.submitting = true := by
    rw [hflag]
    cases hpp : m'.pending with
    | nil => exact absurd hpp hp
    | cons a l => rfl
  refine ⟨hlen, hsub, ?_, ?_⟩
  · simp [mstep, hsub]
  · cases e with
    | click => simp [mstep, hsub, requestsOf]
    | settle o =>
      cases hpp : m'.pending with
      | nil => exact absurd hpp hp
      | cons fd rest => simp [mstep, hpp, finish_no_request]

/-- The sample form machine in its idle initial state. -/
def sampleMachine : FormMachine := { ui := draftReady, pending := [] }

/-- The sample machine after one submit click: request issued, in
flight. -/
def sampleAfterClick : FormMachine := (mstep none sampleMachine MEvent.click).1

/-- **C5 witness**: after one click the sample machine has one request
outstanding; a second click is exactly a no-op and a settle emits no
request. -/
theorem reentrant_guard_single_request_witness :
    (sampleMachine.ui.submitting = false ∧ sampleMachine.pending = [] ∧
     sampleAfterClick ∈ machineStates none sampleMachine [MEvent.click] ∧
     sampleAfterClick.pending ≠ []) ∧
    (sampleAfterClick.pending.length ≤ 1 ∧
     sampleAfterClick.ui.submitting = true ∧
     mstep none sampleAfterClick MEvent.click = (sampleAfterClick, []) ∧
     requestsOf (mstep none sampleAfterClick
       (MEvent.settle (FetchOutcome.response true none))).2 = []) :=
  ⟨⟨by decide, by decide, by decide, by decide⟩,
   reentrant_guard_single_request none sampleMachine sampleAfterClick
     [MEvent.click] (MEvent.settle (FetchOutcome.response true none))
     (by decide) (by decide) (by decide) (by decide)⟩

/-!
## Preview handle lemmas
-/

/-- Under the handle-accounting invariant, at most one handle is live. -/
theorem handleInv_atMostOne (s : PlantState) (h : handleInv s) :
    atMostOneLive s := by
  obtain ⟨hrv, hpv, hlive⟩ := h
  intro h1 h2 hl1 hl2
  have e1 := hlive h1 (List.mem_range.mpr hl1.1) hl1.2
  have e2 := hlive h2 (List.mem_range.mpr hl2.1) hl2.2
  rw [e1] at e2
  exact Option.some.inj e2

/-- **C6.** Selecting a second valid file while a preview is live:
`handleImageFile` revokes the existing handle, stores the new file and
synthesizes the fresh preview; the intermediate release-then-replace
point has no live handle at all, and the final state again satisfies the
accounting invariant, so at every observable instant at most one preview
handle is live. -/
theorem image_reselect_single_live_handle (vres : Bool × Option String)
    (f : ImgFile) (s : PlantState) (h0 : Nat)
    (hv : vres.1 = true) (hinv : handleInv s) (hp : s.previewUrl = some h0) :
    h0 ∈ (handleImageFile vres f s).revoked ∧
    (handleImageFile vres f s).previewUrl = some s.nextHandle ∧
    (handleImageFile vres f s).image = some f ∧
    atMostOneLive (handleImageFileMid s) ∧
    handleInv (handleImageFile vres f s) ∧
    atMostOneLive (handleImageFile vres f s) := by
  obtain ⟨hrv, hpv, hlive⟩ := hinv
  have h0lt : h0 < s.nextHandle := by
    rw [hp] at hpv
    simpa using hpv
  have key : ∀ h, h < s.nextHandle → h ∉ h0 :: s.revoked → False := by
    intro h hlt hmem
    rw [List.mem_cons] at hmem
    push_neg at hmem
    have e := hlive h (List.mem_range.mpr hlt) hmem.2
    rw [hp] at e
    exact hmem.1 (Option.some.inj e).symm
  have hmid : handleImageFileMid s = { s with revoked := h0 :: s.revoked } := by
    unfold handleImageFileMid revokeCurrent
    rw [hp]
  have happ : handleImageFile vres f s =
      { s with
        revoked := h0 :: s.revoked
        image := some f
        previewUrl := some s.nextHandle
        nextHandle := s.nextHandle + 1
        error := none
        success := none } := by
    unfold handleImageFile
    rw [hv]
    simp only [Bool.true_eq_false, if_false]
    rw [show handleImageFileMid s = { s with revoked := h0 :: s.revoked } from hmid]
  refine ⟨?_, ?_, ?_, ?_, ?_, ?_⟩
  · rw [happ]; exact List.mem_cons_self h0 s.revoked
  · rw [happ]
  · rw [happ]
  · intro h1 h2 hl1 hl2
    rw [hmid] at hl1
    exact (key h1 hl1.1 hl1.2).elim
  · rw [happ]
    refine ⟨?_, ?_, ?_⟩
    · intro h hmem
      rw [List.mem_cons] at hmem
      cases hmem with
      | inl h1 => subst h1; exact Nat.lt_succ_of_lt h0lt
      | inr h1 => exact Nat.lt_succ_of_lt (hrv h h1)
    · simp
    · intro h hr hnm
      rw [List.mem_range, Nat.lt_succ_iff_lt_or_eq] at hr
      cases hr with
      | inl hlt => exact (key h hlt hnm).elim
      | inr heq => rw [heq]
  · rw [happ]
    intro h1 h2 hl1 hl2
    have b1 : h1 = s.nextHandle := by
      rcases Nat.lt_succ_iff_lt_or_eq.mp hl1.1 with hlt | heq
      · exact (key h1 hlt hl1.2).elim
      · exact heq
    have b2 : h2 = s.nextHandle := by
      rcases Nat.lt_succ_iff_lt_or_eq.mp hl2.1 with hlt | heq
      · exact (key h2 hlt hl2.2).elim
      · exact heq
    rw [b1, b2]

/-- A second concrete valid image file. -/
def sampleFile2 : ImgFile := { name := "tree2.png", size := 4096, mime := "image/png" }

/-- **C6 witness**: re-selecting over the live handle 0 of the sample
draft. -/
theorem image_reselect_single_live_handle_witness :
    (((true, (none : Option String)) : Bool × Option String).1 = true ∧
     handleInv draftReady ∧ draftReady.previewUrl = some 0) ∧
    (0 ∈ (handleImageFile (true, none) sampleFile2 draftReady).revoked ∧
     (handleImageFile (true, none) sampleFile2 draftReady).previewUrl =
       some draftReady.nextHandle ∧
     (handleImageFile (true, none) sampleFile2 draftReady).image = some sampleFile2 ∧
     atMostOneLive (handleImageFileMid draftReady) ∧
     handleInv (handleImageFile (true, none) sampleFile2 draftReady) ∧
     atMostOneLive (handleImageFile (true, none) sampleFile2 draftReady)) :=
  ⟨⟨by decide, by decide, by decide⟩,
   image_reselect_single_live_handle (true, none) sampleFile2 draftReady 0
     (by decide) (by decide) (by decide)⟩

/-!
## Session gate lemmas
-/

/-- A dependency-keyed effect does not re-run while the dependencies
stay equal to the previous snapshot. -/
theorem effectFiringsAux_replicate {α : Type} [DecidableEq α] (a : α) (n : Nat) :
    effectFiringsAux a (List.replicate n a) = [] := by
  induction n with
  | zero => rfl
  | succ m ih => simp [List.replicate, effectFiringsAux, ih]

/-- Over a run of identical snapshots the effect body runs exactly once,
at mount. -/
theorem effectFirings_replicate {α : Type} [DecidableEq α] (a : α) (n : Nat)
    (hn : 0 < n) : effectFirings (List.replicate n a) = [a] := by
  cases n with
  | zero => exact absurd hn (by simp)
  | succ m => simp [List.replicate, effectFirings, effectFiringsAux_replicate]

/-- **C7.** Once identity resolution has finished: with identity absent,
any run of renders of the auth-required plant page fires the navigation
to `/?auth_required=true` exactly once and the page renders nothing;
with identity present, any run of renders of the public landing page
fires the navigation to `/dashboard` exactly once and the landing view
renders nothing. -/
theorem session_gate_redirects_once (u0 : AuthUser) (n : Nat) (hn : 0 < n) :
    plantGateNavs (List.replicate n ((false, none) : AuthSnap)) =
      ["/?auth_required=true"] ∧
    plantRender (false, none) = PlantRender.empty ∧
    homeGateNavs (List.replicate n ((false, some u0) : AuthSnap)) =
      ["/dashboard"] ∧
    homeRender (false, some u0) = HomeRender.empty := by
  refine ⟨?_, by decide, ?_, ?_⟩
  · unfold plantGateNavs
    rw [effectFirings_replicate ((false, none) : AuthSnap) n hn]
    decide
  · unfold homeGateNavs
    rw [effectFirings_replicate ((false, some u0) : AuthSnap) n hn]
    simp [homeGateEffect]
  · simp [homeRender]

/-- A concrete authenticated user. -/
def sampleUser : AuthUser :=
  { uid := some "u-1", displayName := some "Asha", email := some "asha@example.in" }

/-- **C7 witness**: two consecutive settled renders on each page. -/
theorem session_gate_redirects_once_witness :
    (0 < 2) ∧
    (plantGateNavs (List.replicate 2 ((false, none) : AuthSnap)) =
       ["/?auth_required=true"] ∧
     plantRender (false, none) = PlantRender.empty ∧
     homeGateNavs (List.replicate 2 ((false, some sampleUser) : AuthSnap)) =
       ["/dashboard"] ∧
     homeRender (false, some sampleUser) = HomeRender.empty) :=
  ⟨by decide, session_gate_redirects_once sampleUser 2 (by decide)⟩

/-- **C8.** The teardown cleanup keyed to `previewUrl` revokes the live
preview handle whenever one exists, unconditionally: the rest of the
state — the `submitting` flag of any in-flight or abandoned submission
included — plays no part. -/
theorem teardown_releases_preview (s : PlantState) (h0 : Nat)
    (hp : s.previewUrl = some h0) :
    h0 ∈ (unmountCleanup s).revoked ∧
    (unmountCleanup s).submitting = s.submitting := by
  rcases s with ⟨i, pu, nh, rv, q, tn, sd, er, su, sb⟩
  simp only at hp
  subst hp
  simp [unmountCleanup, revokeCurrent]

/-- The sample draft while its request is in flight (`submitting`
set). -/
def draftInFlight : PlantState := { draftReady with submitting := true }

/-- **C8 witness**: teardown during an in-flight submission still
revokes handle 0. -/
theorem teardown_releases_preview_witness :
    (draftInFlight.previewUrl = some 0) ∧
    (0 ∈ (unmountCleanup draftInFlight).revoked ∧
     (unmountCleanup draftInFlight).submitting = draftInFlight.submitting) :=
  ⟨by decide, teardown_releases_preview draftInFlight 0 (by decide)⟩

/-!
## The second click after a successful submission (C9)
-/

/-- The component state right after a successful submission of the
sample draft (computed by `handleSubmit` on `draftReady`): cleared
fields, revoked handle, success banner, idle flag. -/
def postSuccess : PlantState :=
  { image := none
    previewUrl := none
    nextHandle := 1
    revoked := [0]
    treeQuantity := 1
    treeName := ""
    selectedDistrict := none
    error := none
    success := some "Tree contribution submitted successfully!"
    submitting := false }

/-- **C9 counterexample.** A second submit click issued on the
post-success state is *not* free of visible state change: it clears the
success banner and raises the validation error banner
"Please select a district" (it does issue no network request, but the
claim's "no banner change" part is false). -/
theorem second_click_changes_banner_cex :
    postSuccess = (handleSubmit none draftReady (FetchOutcome.response true none)).1 ∧
    postSuccess.success = some "Tree contribution submitted successfully!" ∧
    postSuccess.error = none ∧
    (mstep none { ui := postSuccess, pending := [] } MEvent.click).1.ui.success =
      none ∧
    (mstep none { ui := postSuccess, pending := [] } MEvent.click).1.ui.error =
      some "Please select a district" ∧
    (mstep none { ui := postSuccess, pending := [] } MEvent.click).1.ui ≠
      postSuccess := by
  decide

/-- **C9 (amended).** A second submit click issued before the delayed
navigation fires issues no network request and leaves every draft field
as it was (cleared), but it is not visually silent: it replaces the
success banner with the validation error "Please select a district". -/
theorem second_click_no_request_sets_banner (u : Option AuthUser)
    (s : PlantState) (hsub : s.submitting = false)
    (hd : s.selectedDistrict = none) :
    mstep u { ui := s, pending := [] } MEvent.click =
      ({ ui := { s with error := some "Please select a district", success := none },
         pending := [] }, []) := by
  rcases s with ⟨i, pu, nh, rv, q, tn, sd, er, su, sb⟩
  simp only at hsub hd
  subst hsub hd
  simp [mstep, handleSubmitStart]

/-- **C9 (amended) witness**: the second click on the post-success
state. -/
theorem second_click_no_request_sets_banner_witness :
    (postSuccess.submitting = false ∧ postSuccess.selectedDistrict = none) ∧
    (mstep none { ui := postSuccess, pending := [] } MEvent.click =
      ({ ui := { postSuccess with
                   error := some "Please select a district"
                   success := none }
         pending := [] }, [])) :=
  ⟨⟨by decide, by decide⟩,
   second_click_no_request_sets_banner none postSuccess (by decide) (by decide)⟩

/-- **C10.** When validation passes, the `submitting` flag is already
set in the state from which the request is issued, and every settle
path — success, non-2xx response, rejection — resets it via the
`finally` block, both for the settle continuation and for the composed
`handleSubmit` run. -/
theorem submitting_reset_on_every_settle (u : Option AuthUser)
    (s s1 : PlantState) (fd : PlantFormData) (o : FetchOutcome)
    (hstart : handleSubmitStart u s = StartResult.started s1 fd) :
    s1.submitting = true ∧
    (handleSubmitFinish s1 o).1.submitting = false ∧
    (handleSubmit u s o).1.submitting = false := by
  refine ⟨start_started_submitting u s s1 fd hstart,
    finish_clears_submitting s1 o, ?_⟩
  simp [handleSubmit, hstart, finish_clears_submitting]

/-- The `FormData` payload built from the sample draft. -/
def sampleFd : PlantFormData :=
  { districtId := "d-01"
    districtName := "Pune"
    stateName := "Maharashtra"
    treeName := "Neem"
    treeQuantity := 3
    userId := none
    userName := none
    userEmail := none
    image := sampleFile }

/-- **C10 witness**: the sample draft, settled by a rejection. -/
theorem submitting_reset_on_every_settle_witness :
    (handleSubmitStart none draftReady = StartResult.started draftInFlight sampleFd) ∧
    (draftInFlight.submitting = true ∧
     (handleSubmitFinish draftInFlight (FetchOutcome.reject "network down")).1.submitting =
       false ∧
     (handleSubmit none draftReady (FetchOutcome.reject "network down")).1.submitting =
       false) :=
  ⟨by decide,
   submitting_reset_on_every_settle none draftReady draftInFlight sampleFd
     (FetchOutcome.reject "network down") (by decide)⟩
